import Mathlib

/-
Shallow embedding of the RM_service document-ingestion pipeline
(src/utils/ebook_handler.py, src/utils/pdf_handler.py,
src/utils/summary_handler.py, src/api/index.py).

External collaborators (HTTP download, pdfplumber, pdf2image, pytesseract,
Gemini, BeautifulSoup parsing, the OpenAI embedding/chat API and the
Supabase persistence backend) are modelled as explicit inputs: each call a
handler makes to one of them is a field of an environment structure, whose
value is an `Except String` result (`.error` models a raised exception).
The handlers' own control flow -- ordering, truthiness checks, try/except
scopes, record shapes -- is translated line by line from the source.
-/

/-- Embedding vectors (list of floats in the source; the numeric content is
never inspected by the handlers, so the element type is abstracted to Int). -/
abbrev Embedding := List Int

/-- Characters removed by Python's str.strip() with no argument (the ASCII
whitespace set; the rarer Unicode space characters never occur here). -/
def isPySpace (c : Char) : Bool :=
  c = ' ' || c = '\t' || c = '\n' || c = '\r' || c = '\x0b' || c = '\x0c'

/-- Python str.strip(): drop leading and trailing whitespace. Defined by
structural recursion over the character list so that concrete runs can be
evaluated inside proofs. -/
def pyStrip (s : String) : String :=
  ⟨((s.data.dropWhile isPySpace).reverse.dropWhile isPySpace).reverse⟩

/-- ASCII lowering of one character, as Python str.lower() acts on the
file-type strings this service compares. -/
def lowerChar (c : Char) : Char :=
  if 'A' ≤ c ∧ c ≤ 'Z' then Char.ofNat (c.toNat + 32) else c

/-- Python str.lower(), structurally over the character list. -/
def pyLower (s : String) : String :=
  ⟨s.data.map lowerChar⟩

/-- Record inserted into the book_pages table (page_data dict in
EBookHandler.process_pdf / process_epub and PDFHandler.extract_text_from_pdf). -/
structure PageData where
  book_id : String
  page_number : Nat
  text : String
  embedding : Option Embedding
deriving Repr, DecidableEq

/-- Observable effects of one extraction run: successful book_pages inserts
(in order), logger.error messages, and whether the downloaded scratch file
was created (download succeeded) and deleted (os.unlink reached). -/
structure RunState where
  writes : List PageData
  log : List String
  tempCreated : Bool
  tempDeleted : Bool
deriving Repr, DecidableEq

/-- Run state before any effect has happened. -/
def emptyRun : RunState :=
  { writes := [], log := [], tempCreated := false, tempDeleted := false }

/-- One page image produced by pdf2image.convert_from_path: pytesseract OCR
(indexed by the tesseract config string) and Gemini generate_content may each
succeed with text or raise. -/
structure PdfImage where
  tesseract : String → Except String String
  gemini : Except String String

/-- Per-page external behaviour: pdfplumber page.extract_text() (may raise,
or return None / a string) and convert_from_path (indexed by dpi; may raise,
or return a possibly empty image list). -/
structure PdfPageEnv where
  textLayer : Except String (Option String)
  convert : Nat → Except String (List PdfImage)

/-- EBookHandler.process_pdf_page: try the text layer first and return it
untrimmed when the trimmed text has more than 50 characters; otherwise
rasterize at dpi 100 and OCR images[0] with config "--psm 6", keeping the
OCR text only when it is non-empty with non-blank content; both attempts
catch their exceptions; the final return is text.strip(). -/
def process_pdf_page (p : PdfPageEnv) : String :=
  let attempt : Option String :=
    match p.textLayer with
    | .error _ => none
    | .ok o =>
      let t := o.getD ""
      if t ≠ "" ∧ 50 < (pyStrip t).length then some t else none
  match attempt with
  | some t => t
  | none =>
    let text0 : String :=
      match p.textLayer with
      | .error _ => ""
      | .ok o => o.getD ""
    let text1 : String :=
      match p.convert 100 with
      | .error _ => text0
      | .ok [] => text0
      | .ok (img :: _) =>
        match img.tesseract "--psm 6" with
        | .error _ => text0
        | .ok ocr_text =>
          if ocr_text ≠ "" ∧ 0 < (pyStrip ocr_text).length then ocr_text else text0
    pyStrip text1

/-- Text-layer string the source works with: "" when extract_text raised or
returned None, the extracted text otherwise (text = page.extract_text() or ""). -/
def pdfTextLayerText (p : PdfPageEnv) : String :=
  match p.textLayer with
  | .error _ => ""
  | .ok o => o.getD ""

/-- OCR outcome of the fallback path of process_pdf_page: some text when
rasterization at dpi 100 produced at least one image and pytesseract with
config "--psm 6" returned text with non-blank content; none otherwise. -/
def pdfOcrText (p : PdfPageEnv) : Option String :=
  match p.convert 100 with
  | .error _ => none
  | .ok [] => none
  | .ok (img :: _) =>
    match img.tesseract "--psm 6" with
    | .error _ => none
    | .ok ocr_text =>
      if ocr_text ≠ "" ∧ 0 < (pyStrip ocr_text).length then some ocr_text else none

/-- EBookHandler.convert_page_to_image: rasterize at dpi 200, return the
first image, or None on failure or empty result. -/
def convert_page_to_image (p : PdfPageEnv) : Option PdfImage :=
  match p.convert 200 with
  | .error _ => none
  | .ok [] => none
  | .ok (img :: _) => some img

/-- EBookHandler.image_to_text_gemini: None for a missing image, on a raised
exception, or a falsy response.text; the response text otherwise. -/
def image_to_text_gemini (img : Option PdfImage) : Option String :=
  match img with
  | none => none
  | some i =>
    match i.gemini with
    | .error _ => none
    | .ok t => if t = "" then none else some t

/-- EBookHandler.process_pdf_page_with_gemini: rasterize the page, send it to
Gemini, return the stripped text, or "" when either step fails. -/
def process_pdf_page_with_gemini (p : PdfPageEnv) : String :=
  match convert_page_to_image p with
  | none => ""
  | some img =>
    match image_to_text_gemini (some img) with
    | none => ""
    | some t => pyStrip t

/-- EBookHandler.write_to_supabase (PDFHandler.write_to_supabase is the same
code): insert one page record; an insert failure is caught and logged, it is
never re-raised, and the record is simply not persisted. -/
def write_to_supabase (insert : PageData → Except String Unit)
    (page_data : PageData) (st : RunState) : RunState :=
  match insert page_data with
  | .ok _ => { st with writes := st.writes ++ [page_data] }
  | .error e => { st with log := st.log ++ ["Failed to write to Supabase: " ++ e] }

/-- EBookHandler.generate_embedding: call the Gemini or (by default) the
OpenAI embedding endpoint; any exception is caught and None is returned. -/
def EBookHandler.generate_embedding
    (openaiEmbed geminiEmbed : String → Except String Embedding)
    (text : String) (use_gemini : Bool) : Option Embedding :=
  match (if use_gemini then geminiEmbed text else openaiEmbed text) with
  | .ok v => some v
  | .error _ => none

/-- Body of the for-loop of EBookHandler.process_pdf over the pages to
process: extract, skip when the stripped text is empty, otherwise embed and
write the record with the 1-based page number. -/
def processPdfPages (extract : PdfPageEnv → String)
    (embed : String → Option Embedding)
    (insert : PageData → Except String Unit) (book_id : String) :
    List PdfPageEnv → Nat → RunState → RunState
  | [], _, st => st
  | p :: rest, page_num, st =>
    let text := extract p
    let st' :=
      if pyStrip text ≠ "" then
        write_to_supabase insert
          { book_id := book_id, page_number := page_num + 1, text := text,
            embedding := embed text } st
      else st
    processPdfPages extract embed insert book_id rest (page_num + 1) st'

/-- Document handle produced by pdfplumber.open. -/
structure PdfDoc where
  pages : List PdfPageEnv

/-- External behaviour a process_pdf run depends on: the streaming download
(requests.get + raise_for_status) and pdfplumber.open on the temp file. -/
structure PdfEnv where
  download : Except String Unit
  openPdf : Except String PdfDoc

/-- Return dict of EBookHandler.process_pdf. -/
structure PdfResult where
  success : Bool
  message : String
  pageCount : Nat
deriving Repr, DecidableEq

/-- EBookHandler.process_pdf: download, open, iterate pages 0..total_pages-1
with total_pages = min(len(pdf.pages), page_count), then unlink the temp
file and return the result dict. Exceptions from download/open propagate
after logging; there is no finally, so os.unlink is reached only on the
success path. page_count is Option Nat because process_ebook's page_limit
defaults to None, on which Python's min raises TypeError. The loop calls
generate_embedding(text) with its default use_gemini=False. -/
def EBookHandler.process_pdf (env : PdfEnv)
    (openaiEmbed geminiEmbed : String → Except String Embedding)
    (insert : PageData → Except String Unit) (book_id : String)
    (page_count : Option Nat) (use_gemini : Bool) :
    RunState × Except String PdfResult :=
  match env.download with
  | .error e => (emptyRun, .error e)
  | .ok _ =>
    let st0 : RunState := { emptyRun with tempCreated := true }
    match env.openPdf with
    | .error e => (st0, .error e)
    | .ok pdf =>
      match page_count with
      | none => (st0, .error "TypeError: min of int and NoneType")
      | some limit =>
        let total_pages := min pdf.pages.length limit
        let extract := if use_gemini then process_pdf_page_with_gemini else process_pdf_page
        let embed := fun t => EBookHandler.generate_embedding openaiEmbed geminiEmbed t false
        let st1 := processPdfPages extract embed insert book_id
          (pdf.pages.take total_pages) 0 st0
        ({ st1 with tempDeleted := true },
         .ok { success := true, message := "PDF processed and stored successfully",
               pageCount := total_pages })

/-- One EPUB document item: item.get_content().decode(utf-8) may raise. -/
structure EpubItem where
  content : Except String String

/-- External behaviour a process_epub run depends on: the download and
epub.read_epub + get_items_of_type(ITEM_DOCUMENT) on the temp file. -/
structure EpubEnv where
  download : Except String Unit
  readEpub : Except String (List EpubItem)

/-- Return dict of EBookHandler.process_epub. -/
structure EpubResult where
  success : Bool
  message : String
  chapterCount : Nat
deriving Repr, DecidableEq

/-- EBookHandler.html_to_text given the BeautifulSoup part (parsing,
script/style removal, get_text) as an abstract function: falsy input gives
"", otherwise split into lines, strip each, split multi-headlines on double
spaces, drop blank chunks and rejoin with newlines. -/
def html_to_text (soupGetText : String → String) (html_content : String) : String :=
  if html_content = "" then ""
  else
    let text := soupGetText html_content
    let lines := (text.splitOn "\n").map pyStrip
    let chunks := lines.flatMap (fun line => (line.splitOn "  ").map pyStrip)
    String.intercalate "\n" (chunks.filter (fun c => c != ""))

/-- Body of the for-loop of EBookHandler.process_epub: decode each item
(a decode failure propagates, aborting the run mid-loop), convert to text,
skip blank chapters, write non-blank ones with the 1-based chapter number,
and count the processed chapters. -/
def processEpubChapters (soupGetText : String → String)
    (embed : String → Option Embedding)
    (insert : PageData → Except String Unit) (book_id : String) :
    List EpubItem → Nat → RunState → RunState × Except String Nat
  | [], chapter_num, st => (st, .ok chapter_num)
  | item :: rest, chapter_num, st =>
    match item.content with
    | .error e => (st, .error e)
    | .ok html_content =>
      let text := html_to_text soupGetText html_content
      let st' :=
        if pyStrip text ≠ "" then
          write_to_supabase insert
            { book_id := book_id, page_number := chapter_num + 1, text := text,
              embedding := embed text } st
        else st
      processEpubChapters soupGetText embed insert book_id rest (chapter_num + 1) st'

/-- Truthiness of chapter_limit in `if chapter_limit and chapter_limit < total_chapters`:
None and 0 are falsy. -/
def epubTruthy : Option Nat → Bool
  | none => false
  | some l => l != 0

/-- EBookHandler.process_epub: download, read the items, slice them to
chapter_limit only when the limit is truthy and below the item count, loop
over the (possibly sliced) items, then unlink the temp file and return the
result dict with the processed-chapter count. As in process_pdf there is no
finally: an exception raised after the download (read_epub or a chapter
decode) propagates with the temp file still on disk. The loop calls
generate_embedding(text) with its default use_gemini=False, so the
use_gemini parameter is unused in this method body. -/
def EBookHandler.process_epub (env : EpubEnv) (soupGetText : String → String)
    (openaiEmbed geminiEmbed : String → Except String Embedding)
    (insert : PageData → Except String Unit) (book_id : String)
    (chapter_limit : Option Nat) (_use_gemini : Bool) :
    RunState × Except String EpubResult :=
  match env.download with
  | .error e => (emptyRun, .error e)
  | .ok _ =>
    let st0 : RunState := { emptyRun with tempCreated := true }
    match env.readEpub with
    | .error e => (st0, .error e)
    | .ok items =>
      let total_chapters := items.length
      let limited := epubTruthy chapter_limit && decide (chapter_limit.getD 0 < total_chapters)
      let items2 := if limited then items.take (chapter_limit.getD 0) else items
      let embed := fun t => EBookHandler.generate_embedding openaiEmbed geminiEmbed t false
      match processEpubChapters soupGetText embed insert book_id items2 0 st0 with
      | (st, .error e) => (st, .error e)
      | (st, .ok chapter_num) =>
        ({ st with tempDeleted := true },
         .ok { success := true, message := "EPUB processed and stored successfully",
               chapterCount := chapter_num })

/-- Result of EBookHandler.process_ebook: whichever branch ran. -/
inductive EbookResult where
  | pdf (r : PdfResult)
  | epub (r : EpubResult)
deriving Repr, DecidableEq

/-- EBookHandler.process_ebook: case-insensitive dispatch on file_type; an
unsupported type raises ValueError before any download or write happens. -/
def EBookHandler.process_ebook (penv : PdfEnv) (eenv : EpubEnv)
    (soupGetText : String → String)
    (openaiEmbed geminiEmbed : String → Except String Embedding)
    (insert : PageData → Except String Unit) (book_id : String)
    (page_limit : Option Nat) (file_type : String) (use_gemini : Bool) :
    RunState × Except String EbookResult :=
  if pyLower file_type = "pdf" then
    let out := EBookHandler.process_pdf penv openaiEmbed geminiEmbed insert
      book_id page_limit use_gemini
    (out.1, out.2.map EbookResult.pdf)
  else if pyLower file_type = "epub" then
    let out := EBookHandler.process_epub eenv soupGetText openaiEmbed geminiEmbed insert
      book_id page_limit use_gemini
    (out.1, out.2.map EbookResult.epub)
  else
    (emptyRun,
     .error ("Unsupported file type: " ++ file_type ++ ". Supported types are pdf and epub."))

/-- PDFHandler.generate_embedding: exceptions are caught, None returned. -/
def PDFHandler.generate_embedding (openaiEmbed : String → Except String Embedding)
    (text : String) : Option Embedding :=
  match openaiEmbed text with
  | .ok v => some v
  | .error _ => none

/-- Body of the for-loop of PDFHandler.extract_text_from_pdf: each page's
extract_text result is None or a string; the persistence guard is plain
truthiness (`if text:`), with no strip, so whitespace-only text is written. -/
def extractTextLoop (openaiEmbed : String → Except String Embedding)
    (insert : PageData → Except String Unit) (book_id : String) :
    List (Option String) → Nat → RunState → RunState
  | [], _, st => st
  | o :: rest, page_num, st =>
    let st' :=
      match o with
      | none => st
      | some text =>
        if text ≠ "" then
          write_to_supabase insert
            { book_id := book_id, page_number := page_num + 1, text := text,
              embedding := PDFHandler.generate_embedding openaiEmbed text } st
        else st
    extractTextLoop openaiEmbed insert book_id rest (page_num + 1) st'

/-- PDFHandler.extract_text_from_pdf: iterate pages 0..min(page_count, total)-1
and persist every page whose extract_text result is truthy. -/
def PDFHandler.extract_text_from_pdf (openaiEmbed : String → Except String Embedding)
    (insert : PageData → Except String Unit)
    (pages : List (Option String)) (page_count : Nat) (book_id : String) : RunState :=
  extractTextLoop openaiEmbed insert book_id
    (pages.take (min page_count pages.length)) 0 emptyRun

/-- Row of the book_pages table as read back by the summary handler. -/
structure PageRow where
  book_id : String
  page_number : Nat
  text : String
deriving Repr, DecidableEq

/-- Tokenizer obtained from tiktoken.encoding_for_model("gpt-4o-mini"). -/
structure Tokenizer where
  encode : String → List Nat
  decode : List Nat → String

/-- One caller-supplied table-of-contents entry. -/
structure TocSection where
  title : String
  start_page : Nat
  end_page : Nat
deriving Repr, DecidableEq

/-- Record inserted into the book_sections table (summary_data dict). -/
structure SummaryData where
  book_id : String
  index : Nat
  section_title : String
  start_page : Nat
  end_page : Nat
  summary : String
  embedding : Embedding
deriving Repr, DecidableEq

/-- Outcome of one openai chat.completions.create call: the call raises, or
responds with choices[0].message.content (none models missing choices or a
falsy content, which the source turns into a raised ValueError). -/
inductive ChatOutcome where
  | raises (e : String)
  | responds (content : Option String)

/-- Token slices of size max_tokens, in order (range(0, len(tokens), max_tokens)).
The max_tokens = 0 case, on which Python's range would raise ValueError, is
mapped to the empty list; every call site uses the default 128000. -/
def chunkTokens (max_tokens : Nat) (ts : List Nat) : List (List Nat) :=
  if h : ts.isEmpty then []
  else if hm : max_tokens = 0 then []
  else
    ts.take max_tokens :: chunkTokens max_tokens (ts.drop max_tokens)
termination_by ts.length
decreasing_by
  have h1 : ts.length ≠ 0 := by
    cases ts with
    | nil => simp at h
    | cons a l => simp
  simp only [List.length_drop]
  omega

/-- SummaryHandler.split_text_128k: encode, slice the token list in steps of
max_tokens (default 128000), decode each slice. -/
def SummaryHandler.split_text_128k (tok : Tokenizer) (text : String)
    (max_tokens : Nat := 128000) : List String :=
  (chunkTokens max_tokens (tok.encode text)).map tok.decode

/-- SummaryHandler.generate_embedding: the try/except logs and re-raises, so
a provider failure propagates to the caller unchanged. -/
def SummaryHandler.generate_embedding (openaiEmbed : String → Except String Embedding)
    (text : String) : Except String Embedding :=
  openaiEmbed text

/-- Per-chunk result inside generate_section_summary: the model's content
when the call succeeded with non-empty content, the raw chunk text otherwise
(the empty-content ValueError and any API exception land in the same except
clause, which appends the chunk as fallback). -/
def chunkSummary (chat : Nat → String → ChatOutcome) (idx : Nat) (chunk : String) : String :=
  match chat idx chunk with
  | .raises _ => chunk
  | .responds none => chunk
  | .responds (some c) => if c = "" then chunk else c

/-- Rows returned by the book_pages range query of generate_section_summary:
book_id equal and start_page <= page_number <= end_page. -/
def sectionRows (db : List PageRow) (book_id : String) (section_data : TocSection) :
    List PageRow :=
  db.filter (fun r =>
    r.book_id == book_id
      && decide (section_data.start_page ≤ r.page_number)
      && decide (r.page_number ≤ section_data.end_page))

/-- SummaryHandler.generate_section_summary: fetch the section's rows (raise
ValueError when none), join their texts with single spaces, split into token
chunks, summarize each chunk with per-chunk fallback to the raw text, join
the partial summaries with blank lines, embed the final summary (a failure
here propagates), and return the summary_data record. The book title and
author only feed the system prompt, which is absorbed into the abstract chat
function. -/
def SummaryHandler.generate_section_summary (db : List PageRow) (tok : Tokenizer)
    (chat : Nat → String → ChatOutcome)
    (openaiEmbed : String → Except String Embedding)
    (book_id _book_title _book_author : String)
    (section_index : Nat) (section_data : TocSection) :
    Except String SummaryData :=
  let rows := sectionRows db book_id section_data
  if rows.isEmpty then
    .error ("No pages found for section between pages "
      ++ toString section_data.start_page ++ " and " ++ toString section_data.end_page)
  else
    let section_text := String.intercalate " " (rows.map PageRow.text)
    let chunks := SummaryHandler.split_text_128k tok section_text
    let summaries := chunks.enum.map (fun p => chunkSummary chat p.1 p.2)
    let final_summary := String.intercalate "\n\n" summaries
    match SummaryHandler.generate_embedding openaiEmbed final_summary with
    | .error e => .error e
    | .ok embedding =>
      .ok { book_id := book_id, index := section_index,
            section_title := section_data.title,
            start_page := section_data.start_page, end_page := section_data.end_page,
            summary := final_summary, embedding := embedding }

/-- JSON-ish value in the dict returned by process_all_sections. -/
inductive JVal where
  | bool (b : Bool)
  | str (s : String)
deriving Repr, DecidableEq

/-- Observable effects of one process_all_sections run: logger.error
messages and the book_sections rows the batch insert persisted. -/
structure SectionsRun where
  log : List String
  written : List SummaryData
deriving Repr, DecidableEq

/-- Successful section summaries, one per TOC entry whose
generate_section_summary did not raise. The ThreadPoolExecutor collects
futures as they complete, so at run time `results` is a permutation of this
list; the embedding fixes submission order, which no consumer of the count
or of the row set distinguishes. -/
def sectionResults (db : List PageRow) (tok : Tokenizer)
    (chat : Nat → String → ChatOutcome)
    (openaiEmbed : String → Except String Embedding)
    (book_id book_title book_author : String) (toc : List TocSection) :
    List SummaryData :=
  toc.enum.filterMap (fun p =>
    (SummaryHandler.generate_section_summary db tok chat openaiEmbed
      book_id book_title book_author p.1 p.2).toOption)

/-- Log lines of the per-future except clause of process_all_sections, one
per failed section. -/
def sectionFailures (db : List PageRow) (tok : Tokenizer)
    (chat : Nat → String → ChatOutcome)
    (openaiEmbed : String → Except String Embedding)
    (book_id book_title book_author : String) (toc : List TocSection) :
    List String :=
  toc.enum.filterMap (fun p =>
    match SummaryHandler.generate_section_summary db tok chat openaiEmbed
      book_id book_title book_author p.1 p.2 with
    | .error e => some ("Error processing section " ++ p.2.title ++ ": " ++ e)
    | .ok _ => none)

/-- SummaryHandler.process_all_sections: fan out generate_section_summary
over the TOC, catch and log each failing section, batch-insert the collected
results when non-empty (an insert failure propagates uncaught), and return
the dict with keys success and message; the succeeded count appears only
inside the message string. -/
def SummaryHandler.process_all_sections (db : List PageRow) (tok : Tokenizer)
    (chat : Nat → String → ChatOutcome)
    (openaiEmbed : String → Except String Embedding)
    (insertSections : List SummaryData → Except String Unit)
    (book_id book_title book_author : String) (toc : List TocSection) :
    SectionsRun × Except String (List (String × JVal)) :=
  let results := sectionResults db tok chat openaiEmbed book_id book_title book_author toc
  let log := sectionFailures db tok chat openaiEmbed book_id book_title book_author toc
  let payload : List (String × JVal) :=
    [("success", JVal.bool true),
     ("message", JVal.str ("Processed " ++ toString results.length ++ " sections"))]
  if results.isEmpty then
    ({ log := log, written := [] }, .ok payload)
  else
    match insertSections results with
    | .error e => ({ log := log, written := [] }, .error e)
    | .ok _ => ({ log := log, written := results }, .ok payload)

/-- One webhook POST attempt of the background workers of src/api/index.py,
with the timeout argument it was given (none on the error path, which calls
requests.post without a timeout). -/
structure PostAttempt where
  url : String
  timeoutSec : Option Nat
  book_id : String
  status : String
  message : String
deriving Repr, DecidableEq

/-- process_ebook_async of src/api/index.py: `work` stands for the outcome
of process_ebook followed by process_section_summary inside the outer try.
On success with a callback URL one POST is made with timeout=5 inside a
try/except that only logs a failure; on a caught work exception one POST is
made without a timeout and outside any try, so a failure of that POST
propagates out of the thread function (the third component). -/
def process_ebook_async (work : Except String Unit)
    (post : PostAttempt → Except String Unit)
    (book_id : String) (callback_url : Option String) :
    List PostAttempt × List String × Except String Unit :=
  match work with
  | .ok _ =>
    match callback_url with
    | none => ([], [], .ok ())
    | some url =>
      let payload : PostAttempt :=
        { url := url, timeoutSec := some 5, book_id := book_id, status := "completed",
          message := "PDF processing and summary generation completed successfully." }
      match post payload with
      | .ok _ => ([payload], ["Webhook Sent"], .ok ())
      | .error e => ([payload], ["Webhook Failed: " ++ e], .ok ())
  | .error e =>
    let log0 := ["Error in background processing: " ++ e]
    match callback_url with
    | none => ([], log0, .ok ())
    | some url =>
      let payload : PostAttempt :=
        { url := url, timeoutSec := none, book_id := book_id, status := "error",
          message := e }
      match post payload with
      | .ok _ => ([payload], log0, .ok ())
      | .error pe => ([payload], log0, .error pe)

/-- process_epub_async of src/api/index.py: identical control flow to
process_ebook_async, with the EPUB completion message. -/
def process_epub_async (work : Except String Unit)
    (post : PostAttempt → Except String Unit)
    (book_id : String) (callback_url : Option String) :
    List PostAttempt × List String × Except String Unit :=
  match work with
  | .ok _ =>
    match callback_url with
    | none => ([], [], .ok ())
    | some url =>
      let payload : PostAttempt :=
        { url := url, timeoutSec := some 5, book_id := book_id, status := "completed",
          message := "EPUB processing and summary generation completed successfully." }
      match post payload with
      | .ok _ => ([payload], ["Webhook Sent"], .ok ())
      | .error e => ([payload], ["Webhook Failed: " ++ e], .ok ())
  | .error e =>
    let log0 := ["Error in background processing: " ++ e]
    match callback_url with
    | none => ([], log0, .ok ())
    | some url =>
      let payload : PostAttempt :=
        { url := url, timeoutSec := none, book_id := book_id, status := "error",
          message := e }
      match post payload with
      | .ok _ => ([payload], log0, .ok ())
      | .error pe => ([payload], log0, .error pe)

/-- Records the process_pdf loop produces when every insert succeeds: one
per page with non-blank extracted text, numbered from page_num + 1. -/
def expectedPages (extract : PdfPageEnv → String) (embed : String → Option Embedding)
    (book_id : String) : List PdfPageEnv → Nat → List PageData
  | [], _ => []
  | p :: rest, page_num =>
    (if pyStrip (extract p) ≠ "" then
      [{ book_id := book_id, page_number := page_num + 1, text := extract p,
         embedding := embed (extract p) }]
     else [])
      ++ expectedPages extract embed book_id rest (page_num + 1)

theorem range'_succ_eq (s n : Nat) : List.range' s (n + 1) = s :: List.range' (s + 1) n := rfl

theorem write_to_supabase_tempFlags (insert : PageData → Except String Unit)
    (pd : PageData) (st : RunState) :
    (write_to_supabase insert pd st).tempCreated = st.tempCreated
      ∧ (write_to_supabase insert pd st).tempDeleted = st.tempDeleted := by
  unfold write_to_supabase
  cases insert pd <;> simp

theorem write_to_supabase_mem (insert : PageData → Except String Unit) (pd : PageData)
    (st : RunState) (r : PageData) (h : r ∈ (write_to_supabase insert pd st).writes) :
    r ∈ st.writes ∨ r = pd := by
  unfold write_to_supabase at h
  split at h
  · simp only [List.mem_append, List.mem_singleton] at h
    exact h
  · exact Or.inl h

theorem processPdfPages_writes_ok (extract : PdfPageEnv → String)
    (embed : String → Option Embedding) (insert : PageData → Except String Unit)
    (book_id : String) (hins : ∀ pd, insert pd = .ok ())
    (ps : List PdfPageEnv) :
    ∀ (page_num : Nat) (st : RunState),
      (processPdfPages extract embed insert book_id ps page_num st).writes
        = st.writes ++ expectedPages extract embed book_id ps page_num := by
  induction ps with
  | nil => intro i st; simp [processPdfPages, expectedPages]
  | cons p rest ih =>
    intro i st
    simp only [processPdfPages, expectedPages]
    by_cases hc : pyStrip (extract p) ≠ ""
    · rw [if_pos hc, if_pos hc, ih]
      simp [write_to_supabase, hins]
    · rw [if_neg hc, if_neg hc, ih]
      simp

theorem processPdfPages_writes_sublist (extract : PdfPageEnv → String)
    (embed : String → Option Embedding) (insert : PageData → Except String Unit)
    (book_id : String) (ps : List PdfPageEnv) :
    ∀ (page_num : Nat) (st : RunState),
      ∃ l, (processPdfPages extract embed insert book_id ps page_num st).writes
              = st.writes ++ l
        ∧ List.Sublist (l.map PageData.page_number) (List.range' (page_num + 1) ps.length) := by
  induction ps with
  | nil => intro i st; exact ⟨[], by simp [processPdfPages], by simp⟩
  | cons p rest ih =>
    intro i st
    simp only [processPdfPages, List.length_cons, range'_succ_eq]
    by_cases hc : pyStrip (extract p) ≠ ""
    · rw [if_pos hc]
      set pd : PageData :=
        { book_id := book_id, page_number := i + 1, text := extract p,
          embedding := embed (extract p) } with hpd
      obtain ⟨l, hw, hs⟩ := ih (i + 1) (write_to_supabase insert pd st)
      cases hins : insert pd with
      | ok u =>
        refine ⟨pd :: l, ?_, ?_⟩
        · rw [hw]
          simp [write_to_supabase, hins]
        · exact List.Sublist.cons₂ _ hs
      | error e =>
        refine ⟨l, ?_, ?_⟩
        · rw [hw]
          simp [write_to_supabase, hins]
        · exact List.Sublist.cons _ hs
    · rw [if_neg hc]
      obtain ⟨l, hw, hs⟩ := ih (i + 1) st
      exact ⟨l, hw, List.Sublist.cons _ hs⟩

theorem processPdfPages_tempFlags (extract : PdfPageEnv → String)
    (embed : String → Option Embedding) (insert : PageData → Except String Unit)
    (book_id : String) (ps : List PdfPageEnv) :
    ∀ (page_num : Nat) (st : RunState),
      (processPdfPages extract embed insert book_id ps page_num st).tempCreated = st.tempCreated
        ∧ (processPdfPages extract embed insert book_id ps page_num st).tempDeleted = st.tempDeleted := by
  induction ps with
  | nil => intro i st; simp [processPdfPages]
  | cons p rest ih =>
    intro i st
    simp only [processPdfPages]
    by_cases hc : pyStrip (extract p) ≠ ""
    · rw [if_pos hc]
      obtain ⟨h1, h2⟩ := ih (i + 1) (write_to_supabase insert _ st)
      obtain ⟨h3, h4⟩ := write_to_supabase_tempFlags insert _ st
      exact ⟨h1.trans h3, h2.trans h4⟩
    · rw [if_neg hc]
      exact ih (i + 1) st

theorem processPdfPages_writes_text (extract : PdfPageEnv → String)
    (embed : String → Option Embedding) (insert : PageData → Except String Unit)
    (book_id : String) (ps : List PdfPageEnv) :
    ∀ (page_num : Nat) (st : RunState) (r : PageData),
      r ∈ (processPdfPages extract embed insert book_id ps page_num st).writes →
        r ∈ st.writes ∨ pyStrip r.text ≠ "" := by
  induction ps with
  | nil => intro i st r hr; simp only [processPdfPages] at hr; exact Or.inl hr
  | cons p rest ih =>
    intro i st r hr
    simp only [processPdfPages] at hr
    by_cases hc : pyStrip (extract p) ≠ ""
    · rw [if_pos hc] at hr
      rcases ih (i + 1) _ r hr with hmem | hne
      · rcases write_to_supabase_mem insert _ st r hmem with hmem2 | rfl
        · exact Or.inl hmem2
        · exact Or.inr hc
      · exact Or.inr hne
    · rw [if_neg hc] at hr
      exact ih (i + 1) st r hr

theorem processPdfPages_insert_fail (extract : PdfPageEnv → String)
    (embed : String → Option Embedding) (insert : PageData → Except String Unit)
    (book_id : String) (err : String) (hins : ∀ pd, insert pd = .error err)
    (ps : List PdfPageEnv) :
    ∀ (page_num : Nat) (st : RunState),
      (processPdfPages extract embed insert book_id ps page_num st).writes = st.writes
        ∧ (processPdfPages extract embed insert book_id ps page_num st).log
            = st.log ++ List.replicate (expectedPages extract embed book_id ps page_num).length
                ("Failed to write to Supabase: " ++ err) := by
  induction ps with
  | nil => intro i st; simp [processPdfPages, expectedPages]
  | cons p rest ih =>
    intro i st
    simp only [processPdfPages, expectedPages]
    by_cases hc : pyStrip (extract p) ≠ ""
    · rw [if_pos hc, if_pos hc]
      obtain ⟨h1, h2⟩ := ih (i + 1) (write_to_supabase insert _ st)
      constructor
      · rw [h1]; simp [write_to_supabase, hins]
      · rw [h2]
        simp [write_to_supabase, hins, List.replicate_succ]
    · rw [if_neg hc, if_neg hc]
      obtain ⟨h1, h2⟩ := ih (i + 1) st
      refine ⟨h1, ?_⟩
      rw [h2]
      simp

theorem processEpubChapters_tempFlags (soupGetText : String → String)
    (embed : String → Option Embedding) (insert : PageData → Except String Unit)
    (book_id : String) (items : List EpubItem) :
    ∀ (chapter_num : Nat) (st : RunState),
      ((processEpubChapters soupGetText embed insert book_id items chapter_num st).1).tempCreated
          = st.tempCreated
        ∧ ((processEpubChapters soupGetText embed insert book_id items chapter_num st).1).tempDeleted
          = st.tempDeleted := by
  induction items with
  | nil => intro i st; simp [processEpubChapters]
  | cons item rest ih =>
    intro i st
    cases hct : item.content with
    | error e => simp [processEpubChapters, hct]
    | ok html =>
      simp only [processEpubChapters, hct]
      by_cases hc : pyStrip (html_to_text soupGetText html) ≠ ""
      · rw [if_pos hc]
        obtain ⟨h1, h2⟩ := ih (i + 1) (write_to_supabase insert _ st)
        obtain ⟨h3, h4⟩ := write_to_supabase_tempFlags insert _ st
        exact ⟨h1.trans h3, h2.trans h4⟩
      · rw [if_neg hc]
        exact ih (i + 1) st

theorem processEpubChapters_writes_sublist (soupGetText : String → String)
    (embed : String → Option Embedding) (insert : PageData → Except String Unit)
    (book_id : String) (items : List EpubItem) :
    ∀ (chapter_num : Nat) (st : RunState),
      ∃ l, ((processEpubChapters soupGetText embed insert book_id items chapter_num st).1).writes
              = st.writes ++ l
        ∧ List.Sublist (l.map PageData.page_number)
            (List.range' (chapter_num + 1) items.length) := by
  induction items with
  | nil => intro i st; exact ⟨[], by simp [processEpubChapters], by simp⟩
  | cons item rest ih =>
    intro i st
    simp only [List.length_cons, range'_succ_eq]
    cases hct : item.content with
    | error e =>
      refine ⟨[], ?_, by simp⟩
      simp [processEpubChapters, hct]
    | ok html =>
      simp only [processEpubChapters, hct]
      by_cases hc : pyStrip (html_to_text soupGetText html) ≠ ""
      · rw [if_pos hc]
        set pd : PageData :=
          { book_id := book_id, page_number := i + 1, text := html_to_text soupGetText html,
            embedding := embed (html_to_text soupGetText html) } with hpd
        obtain ⟨l, hw, hs⟩ := ih (i + 1) (write_to_supabase insert pd st)
        cases hins : insert pd with
        | ok u =>
          refine ⟨pd :: l, ?_, ?_⟩
          · rw [hw]
            simp [write_to_supabase, hins]
          · exact List.Sublist.cons₂ _ hs
        | error e =>
          refine ⟨l, ?_, ?_⟩
          · rw [hw]
            simp [write_to_supabase, hins]
          · exact List.Sublist.cons _ hs
      · rw [if_neg hc]
        obtain ⟨l, hw, hs⟩ := ih (i + 1) st
        exact ⟨l, hw, List.Sublist.cons _ hs⟩

theorem processEpubChapters_count (soupGetText : String → String)
    (embed : String → Option Embedding) (insert : PageData → Except String Unit)
    (book_id : String) (items : List EpubItem)
    (hok : ∀ it ∈ items, it.content.isOk = true) :
    ∀ (chapter_num : Nat) (st : RunState),
      (processEpubChapters soupGetText embed insert book_id items chapter_num st).2
        = .ok (chapter_num + items.length) := by
  induction items with
  | nil => intro i st; simp [processEpubChapters]
  | cons item rest ih =>
    intro i st
    have hhd := hok item (List.mem_cons_self item rest)
    cases hct : item.content with
    | error e => rw [hct] at hhd; simp [Except.isOk, Except.toBool] at hhd
    | ok html =>
      have htl : ∀ it ∈ rest, it.content.isOk = true := by
        intro it hit
        exact hok it (List.mem_cons_of_mem item hit)
      simp only [processEpubChapters, hct]
      by_cases hc : pyStrip (html_to_text soupGetText html) ≠ ""
      · rw [if_pos hc, ih htl (i + 1)]
        simp [List.length_cons]
        omega
      · rw [if_neg hc, ih htl (i + 1)]
        simp [List.length_cons]
        omega

theorem processEpubChapters_writes_text (soupGetText : String → String)
    (embed : String → Option Embedding) (insert : PageData → Except String Unit)
    (book_id : String) (items : List EpubItem) :
    ∀ (chapter_num : Nat) (st : RunState) (r : PageData),
      r ∈ ((processEpubChapters soupGetText embed insert book_id items chapter_num st).1).writes →
        r ∈ st.writes ∨ pyStrip r.text ≠ "" := by
  induction items with
  | nil => intro i st r hr; simp only [processEpubChapters] at hr; exact Or.inl hr
  | cons item rest ih =>
    intro i st r hr
    cases hct : item.content with
    | error e =>
      simp only [processEpubChapters, hct] at hr
      exact Or.inl hr
    | ok html =>
      simp only [processEpubChapters, hct] at hr
      by_cases hc : pyStrip (html_to_text soupGetText html) ≠ ""
      · rw [if_pos hc] at hr
        rcases ih (i + 1) _ r hr with hmem | hne
        · rcases write_to_supabase_mem insert _ st r hmem with hmem2 | rfl
          · exact Or.inl hmem2
          · exact Or.inr hc
        · exact Or.inr hne
      · rw [if_neg hc] at hr
        exact ih (i + 1) st r hr

theorem extractTextLoop_writes_text (openaiEmbed : String → Except String Embedding)
    (insert : PageData → Except String Unit) (book_id : String)
    (pages : List (Option String)) :
    ∀ (page_num : Nat) (st : RunState) (r : PageData),
      r ∈ (extractTextLoop openaiEmbed insert book_id pages page_num st).writes →
        r ∈ st.writes ∨ r.text ≠ "" := by
  induction pages with
  | nil => intro i st r hr; simp only [extractTextLoop] at hr; exact Or.inl hr
  | cons o rest ih =>
    intro i st r hr
    cases o with
    | none =>
      simp only [extractTextLoop] at hr
      exact ih (i + 1) st r hr
    | some text =>
      simp only [extractTextLoop] at hr
      by_cases hc : text ≠ ""
      · rw [if_pos hc] at hr
        rcases ih (i + 1) _ r hr with hmem | hne
        · rcases write_to_supabase_mem insert _ st r hmem with hmem2 | rfl
          · exact Or.inl hmem2
          · exact Or.inr hc
        · exact Or.inr hne
      · rw [if_neg hc] at hr
        exact ih (i + 1) st r hr

theorem pyStrip_empty : pyStrip "" = "" := rfl

theorem pdfFallback_eq (p : PdfPageEnv) (t0 : String) :
    (match p.convert 100 with
      | .error _ => t0
      | .ok [] => t0
      | .ok (img :: _) =>
        match img.tesseract "--psm 6" with
        | .error _ => t0
        | .ok ocr_text =>
          if ocr_text ≠ "" ∧ 0 < (pyStrip ocr_text).length then ocr_text else t0)
      = (pdfOcrText p).getD t0 := by
  unfold pdfOcrText
  cases p.convert 100 with
  | error e => rfl
  | ok imgs =>
    cases imgs with
    | nil => rfl
    | cons img rest =>
      dsimp only
      cases img.tesseract "--psm 6" with
      | error e => rfl
      | ok s =>
        dsimp only
        by_cases hcnd : s ≠ "" ∧ 0 < (pyStrip s).length
        · rw [if_pos hcnd, if_pos hcnd]
          rfl
        · rw [if_neg hcnd, if_neg hcnd]
          rfl

theorem process_pdf_page_eq (p : PdfPageEnv) :
    process_pdf_page p =
      if 50 < (pyStrip (pdfTextLayerText p)).length then pdfTextLayerText p
      else pyStrip ((pdfOcrText p).getD (pdfTextLayerText p)) := by
  cases htl : p.textLayer with
  | error e =>
    have ht0 : pdfTextLayerText p = "" := by unfold pdfTextLayerText; rw [htl]
    unfold process_pdf_page
    rw [htl]
    dsimp only
    rw [pdfFallback_eq p "", ht0, pyStrip_empty]
    rw [if_neg (by decide)]
  | ok o =>
    have ht0 : pdfTextLayerText p = o.getD "" := by unfold pdfTextLayerText; rw [htl]
    unfold process_pdf_page
    rw [htl]
    dsimp only
    rw [ht0]
    by_cases h50 : 50 < (pyStrip (o.getD "")).length
    · have hne : o.getD "" ≠ "" := by
        intro hemp
        rw [hemp, pyStrip_empty] at h50
        exact absurd h50 (by decide)
      rw [if_pos ⟨hne, h50⟩, if_pos h50]
    · have hcond : ¬(o.getD "" ≠ "" ∧ 50 < (pyStrip (o.getD "")).length) := by
        intro hand
        exact h50 hand.2
      rw [if_neg hcond, if_neg h50]
      dsimp only
      rw [pdfFallback_eq p (o.getD "")]

/-- C6. The claim holds except in one corner: when the text layer yields
short (at most 50 trimmed characters) but non-blank text and the OCR path
then fails or produces blank output, process_pdf_page returns the stripped
short text-layer text, not the empty string. Amended statement: the
text-layer result is returned untrimmed exactly when its stripped form
exceeds 50 characters; otherwise the page is rasterized and images[0] is
OCRed with config "--psm 6" (pdfOcrText), the stripped OCR text is returned
when it has non-blank content, and the stripped text-layer text (empty when
the text layer raised or returned None) is returned when the OCR path
yields nothing; both paths catch their exceptions, so the function is
total. -/
theorem claim_C6_amended (p : PdfPageEnv) :
    (50 < (pyStrip (pdfTextLayerText p)).length →
      process_pdf_page p = pdfTextLayerText p)
    ∧ ((pyStrip (pdfTextLayerText p)).length ≤ 50 →
        (∀ s, pdfOcrText p = some s → process_pdf_page p = pyStrip s)
        ∧ (pdfOcrText p = none → process_pdf_page p = pyStrip (pdfTextLayerText p))) := by
  constructor
  · intro h50
    rw [process_pdf_page_eq, if_pos h50]
  · intro hle
    have hnot : ¬ 50 < (pyStrip (pdfTextLayerText p)).length := by omega
    constructor
    · intro s hs
      rw [process_pdf_page_eq, if_neg hnot, hs]
      rfl
    · intro hnone
      rw [process_pdf_page_eq, if_neg hnot, hnone]
      rfl

/-- Page whose text layer yields short text and whose rasterization fails. -/
def c6cexPage : PdfPageEnv :=
  { textLayer := .ok (some "hi"), convert := fun _ => .error "pdfinfo failed" }

/-- C6, counterexample to the claim as stated: the text-layer text "hi" has
at most 50 trimmed characters and the OCR path fails, yet process_pdf_page
returns "hi" rather than the empty string the claim requires when the text
layer is rejected and OCR fails. -/
theorem claim_C6_counterexample :
    process_pdf_page c6cexPage = "hi"
      ∧ (pyStrip (pdfTextLayerText c6cexPage)).length ≤ 50
      ∧ pdfOcrText c6cexPage = none := by
  refine ⟨rfl, by decide, rfl⟩

/-- Page with short text-layer text whose OCR succeeds. -/
def c6okPage : PdfPageEnv :=
  { textLayer := .ok (some "short"),
    convert := fun _ => .ok [{ tesseract := fun _ => .ok "OCRTEXT", gemini := .error "x" }] }

/-- C6, witness: the amended theorem applied to a concrete page on the OCR
branch. -/
theorem claim_C6_witness :
    process_pdf_page c6okPage = pyStrip "OCRTEXT" :=
  ((claim_C6_amended c6okPage).2 (by decide)).1 "OCRTEXT" rfl

/-- C7. The claim fails: there is no try/finally around the processing
loops, so os.unlink is reached only on the success path. Amended statement:
for both process_pdf and process_epub the scratch file exists exactly when
the download succeeded, and it is deleted exactly when the whole run
returns its success dict; on every error exit after a successful download
(open/read failure, a missing page limit, or a chapter decode failure) the
file remains on disk. -/
theorem claim_C7_amended :
    (∀ (env : PdfEnv) (openaiEmbed geminiEmbed : String → Except String Embedding)
        (insert : PageData → Except String Unit) (book_id : String)
        (page_count : Option Nat) (use_gemini : Bool),
      ((EBookHandler.process_pdf env openaiEmbed geminiEmbed insert book_id
          page_count use_gemini).1).tempCreated = env.download.isOk
      ∧ ((EBookHandler.process_pdf env openaiEmbed geminiEmbed insert book_id
          page_count use_gemini).1).tempDeleted
        = (EBookHandler.process_pdf env openaiEmbed geminiEmbed insert book_id
            page_count use_gemini).2.isOk)
    ∧ (∀ (env : EpubEnv) (soupGetText : String → String)
        (openaiEmbed geminiEmbed : String → Except String Embedding)
        (insert : PageData → Except String Unit) (book_id : String)
        (chapter_limit : Option Nat) (use_gemini : Bool),
      ((EBookHandler.process_epub env soupGetText openaiEmbed geminiEmbed insert book_id
          chapter_limit use_gemini).1).tempCreated = env.download.isOk
      ∧ ((EBookHandler.process_epub env soupGetText openaiEmbed geminiEmbed insert book_id
          chapter_limit use_gemini).1).tempDeleted
        = (EBookHandler.process_epub env soupGetText openaiEmbed geminiEmbed insert book_id
            chapter_limit use_gemini).2.isOk) := by
  constructor
  · intro env oe ge insert bid pc ug
    unfold EBookHandler.process_pdf
    cases env.download with
    | error e => simp [emptyRun, Except.isOk, Except.toBool]
    | ok u =>
      cases env.openPdf with
      | error e => simp [emptyRun, Except.isOk, Except.toBool]
      | ok pdf =>
        cases pc with
        | none => simp [emptyRun, Except.isOk, Except.toBool]
        | some limit =>
          obtain ⟨h1, _h2⟩ := processPdfPages_tempFlags
            (if ug then process_pdf_page_with_gemini else process_pdf_page)
            (fun t => EBookHandler.generate_embedding oe ge t false) insert bid
            (pdf.pages.take (min pdf.pages.length limit)) 0
            { emptyRun with tempCreated := true }
          simp only [emptyRun] at h1 ⊢
          simp [h1, Except.isOk, Except.toBool]
  · intro env sgt oe ge insert bid cl ug
    unfold EBookHandler.process_epub
    cases env.download with
    | error e => simp [emptyRun, Except.isOk, Except.toBool]
    | ok u =>
      cases env.readEpub with
      | error e => simp [emptyRun, Except.isOk, Except.toBool]
      | ok items =>
        dsimp only [emptyRun]
        rcases hloop : processEpubChapters sgt
            (fun t => EBookHandler.generate_embedding oe ge t false) insert bid
            (if epubTruthy cl && decide (cl.getD 0 < items.length)
              then items.take (cl.getD 0) else items) 0
            { writes := [], log := [], tempCreated := true, tempDeleted := false } with ⟨stf, res⟩
        obtain ⟨h1, h2⟩ := processEpubChapters_tempFlags sgt
          (fun t => EBookHandler.generate_embedding oe ge t false) insert bid
          (if epubTruthy cl && decide (cl.getD 0 < items.length)
            then items.take (cl.getD 0) else items) 0
          { writes := [], log := [], tempCreated := true, tempDeleted := false }
        rw [hloop] at h1 h2
        simp only at h1 h2
        cases res with
        | error e => simp [h1, h2, Except.isOk, Except.toBool]
        | ok n => simp [h1, Except.isOk, Except.toBool]

/-- Environment where the download succeeds and pdfplumber.open raises. -/
def c7env : PdfEnv := { download := .ok (), openPdf := .error "corrupt pdf" }

/-- C7, counterexample to the claim as stated: a run whose open step fails
ends in an error with the scratch file created but never deleted, so the
deletion is not unconditional across exit paths. -/
theorem claim_C7_counterexample :
    EBookHandler.process_pdf c7env (fun _ => .ok []) (fun _ => .ok [])
        (fun _ => .ok ()) "b1" (some 3) false
      = ({ writes := [], log := [], tempCreated := true, tempDeleted := false },
         .error "corrupt pdf") := rfl

/-- Payload of the completion-path webhook POST of the background workers. -/
def completedPayload (url book_id msg : String) : PostAttempt :=
  { url := url, timeoutSec := some 5, book_id := book_id, status := "completed",
    message := msg }

/-- Payload of the error-path webhook POST of the background workers. -/
def errorPayload (url book_id e : String) : PostAttempt :=
  { url := url, timeoutSec := none, book_id := book_id, status := "error", message := e }

/-- C9. The claim holds on the completion path but fails on the error path:
the error-path POST is issued without a timeout and outside any try, so its
own failure propagates out of the background thread function. Amended
statement: with a callback URL exactly one POST carrying the book id and a
completed/error status is attempted per run; on completion it uses
timeout=5 and its failure is only logged; on a caught work error it carries
the error message, has no timeout, and the thread function ends with
whatever the POST call returns, propagating a POST failure. The same holds
for process_epub_async. -/
theorem claim_C9_amended (work : Except String Unit)
    (post : PostAttempt → Except String Unit) (book_id url : String) :
    ((process_ebook_async work post book_id (some url)).1.length = 1
      ∧ (∀ a ∈ (process_ebook_async work post book_id (some url)).1,
          a.book_id = book_id ∧ a.url = url
            ∧ (a.status = "completed" ∨ a.status = "error"))
      ∧ (work = .ok () →
          (∀ a ∈ (process_ebook_async work post book_id (some url)).1,
            a.timeoutSec = some 5)
          ∧ (process_ebook_async work post book_id (some url)).2.2 = .ok ())
      ∧ (∀ e, work = .error e →
          (∀ a ∈ (process_ebook_async work post book_id (some url)).1,
            a.timeoutSec = none)
          ∧ (process_ebook_async work post book_id (some url)).2.2
              = post (errorPayload url book_id e)))
    ∧ ((process_epub_async work post book_id (some url)).1.length = 1
      ∧ (∀ a ∈ (process_epub_async work post book_id (some url)).1,
          a.book_id = book_id ∧ a.url = url
            ∧ (a.status = "completed" ∨ a.status = "error"))
      ∧ (work = .ok () →
          (∀ a ∈ (process_epub_async work post book_id (some url)).1,
            a.timeoutSec = some 5)
          ∧ (process_epub_async work post book_id (some url)).2.2 = .ok ())
      ∧ (∀ e, work = .error e →
          (∀ a ∈ (process_epub_async work post book_id (some url)).1,
            a.timeoutSec = none)
          ∧ (process_epub_async work post book_id (some url)).2.2
              = post (errorPayload url book_id e))) := by
  cases work with
  | ok u =>
    cases u
    constructor
    · unfold process_ebook_async
      cases hp : (post (completedPayload url book_id
          "PDF processing and summary generation completed successfully.")) with
      | ok v =>
        simp only [completedPayload] at hp
        simp [hp]
      | error e =>
        simp only [completedPayload] at hp
        simp [hp]
    · unfold process_epub_async
      cases hp : (post (completedPayload url book_id
          "EPUB processing and summary generation completed successfully.")) with
      | ok v =>
        simp only [completedPayload] at hp
        simp [hp]
      | error e =>
        simp only [completedPayload] at hp
        simp [hp]
  | error e =>
    constructor
    · unfold process_ebook_async
      cases hp : (post (errorPayload url book_id e)) with
      | ok v =>
        cases v
        simp only [errorPayload] at hp
        simp [errorPayload, hp]
      | error pe =>
        simp only [errorPayload] at hp
        simp [errorPayload, hp]
    · unfold process_epub_async
      cases hp : (post (errorPayload url book_id e)) with
      | ok v =>
        cases v
        simp only [errorPayload] at hp
        simp [errorPayload, hp]
      | error pe =>
        simp only [errorPayload] at hp
        simp [errorPayload, hp]

/-- C9, counterexample to the claim as stated: on the error path the single
POST is made with no timeout (the claim requires the 5-second timeout) and
its failure escapes the thread function as an error (the claim requires it
to be logged only and never propagated). -/
theorem claim_C9_counterexample :
    process_ebook_async (.error "boom") (fun _ => .error "refused") "b1" (some "cb")
      = ([{ url := "cb", timeoutSec := none, book_id := "b1", status := "error",
            message := "boom" }],
         ["Error in background processing: boom"], .error "refused") := rfl

/-- Callback endpoint that accepts every POST, for the C9 witness. -/
def c9post : PostAttempt → Except String Unit := fun _ => .ok ()

/-- C9, witness: the amended theorem applied on the completion path with a
callback URL, discharging the completion hypothesis. -/
theorem claim_C9_witness :
    (process_ebook_async (.ok ()) c9post "b1" (some "cb")).1.length = 1
      ∧ (process_ebook_async (.ok ()) c9post "b1" (some "cb")).2.2 = .ok () :=
  ⟨(claim_C9_amended (.ok ()) c9post "b1" "cb").1.1,
   ((claim_C9_amended (.ok ()) c9post "b1" "cb").1.2.2.1 rfl).2⟩

/-- C10. Confirmed: for any file_type whose lowercase form is neither pdf
nor epub, process_ebook raises ValueError naming the type, with no download
performed and no record written (the run state is still empty). -/
theorem claim_C10 (penv : PdfEnv) (eenv : EpubEnv) (soupGetText : String → String)
    (openaiEmbed geminiEmbed : String → Except String Embedding)
    (insert : PageData → Except String Unit) (book_id : String)
    (page_limit : Option Nat) (file_type : String) (use_gemini : Bool)
    (h1 : pyLower file_type ≠ "pdf") (h2 : pyLower file_type ≠ "epub") :
    EBookHandler.process_ebook penv eenv soupGetText openaiEmbed geminiEmbed insert
        book_id page_limit file_type use_gemini
      = (emptyRun, .error ("Unsupported file type: " ++ file_type
          ++ ". Supported types are pdf and epub."))
      ∧ emptyRun.writes = [] ∧ emptyRun.tempCreated = false := by
  refine ⟨?_, rfl, rfl⟩
  unfold EBookHandler.process_ebook
  rw [if_neg h1, if_neg h2]

/-- Trivial download environments for witnesses. -/
def trivPdfEnv : PdfEnv := { download := .ok (), openPdf := .ok { pages := [] } }

/-- Trivial EPUB environment for witnesses. -/
def trivEpubEnv : EpubEnv := { download := .ok (), readEpub := .ok [] }

/-- C10, witness: the theorem applied at file_type "TxT". -/
theorem claim_C10_witness :
    EBookHandler.process_ebook trivPdfEnv trivEpubEnv (fun s => s) (fun _ => .ok [])
        (fun _ => .ok []) (fun _ => .ok ()) "b1" (some 1) "TxT" false
      = (emptyRun, .error ("Unsupported file type: " ++ "TxT"
          ++ ". Supported types are pdf and epub."))
      ∧ emptyRun.writes = [] ∧ emptyRun.tempCreated = false :=
  claim_C10 trivPdfEnv trivEpubEnv (fun s => s) (fun _ => .ok [])
    (fun _ => .ok []) (fun _ => .ok ()) "b1" (some 1) "TxT" false
    (by decide) (by decide)

theorem process_pdf_ok (env : PdfEnv) (pdf : PdfDoc)
    (oe ge : String → Except String Embedding) (insert : PageData → Except String Unit)
    (bid : String) (limit : Nat) (ug : Bool)
    (hdl : env.download = .ok ()) (hop : env.openPdf = .ok pdf) :
    EBookHandler.process_pdf env oe ge insert bid (some limit) ug
      = ({ processPdfPages (if ug then process_pdf_page_with_gemini else process_pdf_page)
            (fun t => EBookHandler.generate_embedding oe ge t false) insert bid
            (pdf.pages.take (min pdf.pages.length limit)) 0
            { writes := [], log := [], tempCreated := true, tempDeleted := false }
          with tempDeleted := true },
         .ok { success := true, message := "PDF processed and stored successfully",
               pageCount := min pdf.pages.length limit }) := by
  unfold EBookHandler.process_pdf
  rw [hdl, hop]
  rfl

theorem process_epub_ok (env : EpubEnv) (items : List EpubItem) (sgt : String → String)
    (oe ge : String → Except String Embedding) (insert : PageData → Except String Unit)
    (bid : String) (cl : Option Nat) (ug : Bool)
    (hdl : env.download = .ok ()) (hrd : env.readEpub = .ok items) :
    EBookHandler.process_epub env sgt oe ge insert bid cl ug
      = (match processEpubChapters sgt
            (fun t => EBookHandler.generate_embedding oe ge t false) insert bid
            (if epubTruthy cl && decide (cl.getD 0 < items.length)
              then items.take (cl.getD 0) else items) 0
            { writes := [], log := [], tempCreated := true, tempDeleted := false } with
         | (st, .error e) => (st, .error e)
         | (st, .ok chapter_num) =>
           ({ st with tempDeleted := true },
            .ok { success := true, message := "EPUB processed and stored successfully",
                  chapterCount := chapter_num })) := by
  unfold EBookHandler.process_epub
  rw [hdl, hrd]
  rfl

/-- Unit count the claim has to be amended to for the EPUB path: the source
treats a falsy chapter_limit (None or 0) as no limit at all, and otherwise
processes min(N, limit) chapters. -/
def epubTotal (chapter_limit : Option Nat) (n : Nat) : Nat :=
  match chapter_limit with
  | none => n
  | some l => if l = 0 then n else min n l

theorem epubItems2_length (cl : Option Nat) (items : List EpubItem) :
    (if epubTruthy cl && decide (cl.getD 0 < items.length)
      then items.take (cl.getD 0) else items).length = epubTotal cl items.length := by
  cases cl with
  | none => simp [epubTruthy, epubTotal]
  | some l =>
    by_cases hl : l = 0
    · subst hl
      simp [epubTruthy, epubTotal]
    · by_cases hlt : l < items.length
      · have hcond : (epubTruthy (some l) && decide ((some l).getD 0 < items.length)) = true := by
          simp [epubTruthy, hl, hlt]
        rw [if_pos hcond, List.length_take]
        simp [epubTotal, hl, Nat.min_comm]
      · have hcond : (epubTruthy (some l) && decide ((some l).getD 0 < items.length)) = false := by
          simp [epubTruthy, hl, hlt]
        rw [if_neg (by rw [hcond]; exact Bool.false_ne_true)]
        simp only [epubTotal, Option.getD_some, if_neg hl]
        rw [min_eq_left (by omega : items.length ≤ l)]

/-- C1. The PDF half of the claim holds as stated. The EPUB half fails for a
falsy limit: chapter_limit 0 (or None) disables the cap instead of capping
at min(N, 0). Amended statement: process_pdf processes exactly
min(N, page_count) pages; process_epub processes exactly epubTotal, that is
min(N, limit) for a positive limit and all N chapters when the limit is
None or 0; in both runs the persisted page_number values form a sublist of
1..count, hence lie in that range, are pairwise distinct, and follow source
order. -/
theorem claim_C1_amended :
    (∀ (env : PdfEnv) (pdf : PdfDoc) (oe ge : String → Except String Embedding)
        (insert : PageData → Except String Unit) (bid : String) (limit : Nat) (ug : Bool),
      env.download = .ok () → env.openPdf = .ok pdf →
      (EBookHandler.process_pdf env oe ge insert bid (some limit) ug).2
          = .ok { success := true, message := "PDF processed and stored successfully",
                  pageCount := min pdf.pages.length limit }
        ∧ List.Sublist
            (((EBookHandler.process_pdf env oe ge insert bid (some limit) ug).1).writes.map
              PageData.page_number)
            (List.range' 1 (min pdf.pages.length limit)))
    ∧ (∀ (env : EpubEnv) (items : List EpubItem) (sgt : String → String)
        (oe ge : String → Except String Embedding)
        (insert : PageData → Except String Unit) (bid : String)
        (cl : Option Nat) (ug : Bool),
      env.download = .ok () → env.readEpub = .ok items →
      (∀ it ∈ items, it.content.isOk = true) →
      (EBookHandler.process_epub env sgt oe ge insert bid cl ug).2
          = .ok { success := true, message := "EPUB processed and stored successfully",
                  chapterCount := epubTotal cl items.length }
        ∧ List.Sublist
            (((EBookHandler.process_epub env sgt oe ge insert bid cl ug).1).writes.map
              PageData.page_number)
            (List.range' 1 (epubTotal cl items.length))) := by
  constructor
  · intro env pdf oe ge insert bid limit ug hdl hop
    rw [process_pdf_ok env pdf oe ge insert bid limit ug hdl hop]
    refine ⟨rfl, ?_⟩
    obtain ⟨l, hw, hs⟩ := processPdfPages_writes_sublist
      (if ug then process_pdf_page_with_gemini else process_pdf_page)
      (fun t => EBookHandler.generate_embedding oe ge t false) insert bid
      (pdf.pages.take (min pdf.pages.length limit)) 0
      { writes := [], log := [], tempCreated := true, tempDeleted := false }
    have hlen : (pdf.pages.take (min pdf.pages.length limit)).length
        = min pdf.pages.length limit := by
      rw [List.length_take]
      exact min_eq_left (min_le_left _ _)
    rw [hlen] at hs
    dsimp only
    rw [hw]
    simpa using hs
  · intro env items sgt oe ge insert bid cl ug hdl hrd hok
    rw [process_epub_ok env items sgt oe ge insert bid cl ug hdl hrd]
    have hok2 : ∀ it ∈ (if epubTruthy cl && decide (cl.getD 0 < items.length)
        then items.take (cl.getD 0) else items), it.content.isOk = true := by
      intro it hit
      apply hok
      by_cases hcond : (epubTruthy cl && decide (cl.getD 0 < items.length)) = true
      · rw [if_pos hcond] at hit
        exact List.mem_of_mem_take hit
      · rw [if_neg hcond] at hit
        exact hit
    have hcount := processEpubChapters_count sgt
      (fun t => EBookHandler.generate_embedding oe ge t false) insert bid _ hok2 0
      { writes := [], log := [], tempCreated := true, tempDeleted := false }
    obtain ⟨l, hw, hs⟩ := processEpubChapters_writes_sublist sgt
      (fun t => EBookHandler.generate_embedding oe ge t false) insert bid
      (if epubTruthy cl && decide (cl.getD 0 < items.length)
        then items.take (cl.getD 0) else items) 0
      { writes := [], log := [], tempCreated := true, tempDeleted := false }
    rcases hpair : processEpubChapters sgt
        (fun t => EBookHandler.generate_embedding oe ge t false) insert bid
        (if epubTruthy cl && decide (cl.getD 0 < items.length)
          then items.take (cl.getD 0) else items) 0
        { writes := [], log := [], tempCreated := true, tempDeleted := false } with ⟨stf, res⟩
    rw [hpair] at hcount hw
    simp only at hcount hw
    rw [epubItems2_length] at hcount
    subst hcount
    dsimp only
    constructor
    · simp
    · rw [hw]
      rw [epubItems2_length] at hs
      simpa using hs

/-- Environment with a single non-blank EPUB chapter. -/
def c1cexEnv : EpubEnv := { download := .ok (), readEpub := .ok [{ content := .ok "x" }] }

/-- C1, counterexample to the claim as stated: with N = 1 chapter and
caller-supplied limit L = 0 the claim demands min(1, 0) = 0 processed
units, but process_epub treats the falsy limit as no limit and processes 1
chapter. -/
theorem claim_C1_counterexample :
    (EBookHandler.process_epub c1cexEnv (fun s => s) (fun _ => .ok [1]) (fun _ => .ok [2])
        (fun _ => .ok ()) "b1" (some 0) false).2
      = .ok { success := true, message := "EPUB processed and stored successfully",
              chapterCount := 1 }
    ∧ min 1 0 = 0 := ⟨rfl, rfl⟩

/-- Empty PDF document for the C1 witness. -/
def c1wDoc : PdfDoc := { pages := [] }

/-- Environment delivering c1wDoc. -/
def c1wPdfEnv : PdfEnv := { download := .ok (), openPdf := .ok c1wDoc }

/-- Items of the C1 epub witness. -/
def c1wItems : List EpubItem := [{ content := .ok "x" }]

/-- Environment delivering c1wItems. -/
def c1wEpubEnv : EpubEnv := { download := .ok (), readEpub := .ok c1wItems }

/-- C1, witness: the amended theorem applied to concrete runs, one per
half, discharging the download/open/read hypotheses. -/
theorem claim_C1_witness :
    ((EBookHandler.process_pdf c1wPdfEnv (fun _ => .ok []) (fun _ => .ok [])
          (fun _ => .ok ()) "b1" (some 5) false).2
        = .ok { success := true, message := "PDF processed and stored successfully",
                pageCount := min c1wDoc.pages.length 5 }
      ∧ List.Sublist
          (((EBookHandler.process_pdf c1wPdfEnv (fun _ => .ok []) (fun _ => .ok [])
              (fun _ => .ok ()) "b1" (some 5) false).1).writes.map PageData.page_number)
          (List.range' 1 (min c1wDoc.pages.length 5)))
    ∧ ((EBookHandler.process_epub c1wEpubEnv (fun s => s) (fun _ => .ok [])
          (fun _ => .ok []) (fun _ => .ok ()) "b1" (some 2) false).2
        = .ok { success := true, message := "EPUB processed and stored successfully",
                chapterCount := epubTotal (some 2) c1wItems.length }
      ∧ List.Sublist
          (((EBookHandler.process_epub c1wEpubEnv (fun s => s) (fun _ => .ok [])
              (fun _ => .ok []) (fun _ => .ok ()) "b1" (some 2) false).1).writes.map
            PageData.page_number)
          (List.range' 1 (epubTotal (some 2) c1wItems.length))) :=
  ⟨claim_C1_amended.1 c1wPdfEnv c1wDoc (fun _ => .ok []) (fun _ => .ok [])
      (fun _ => .ok ()) "b1" 5 false rfl rfl,
   claim_C1_amended.2 c1wEpubEnv c1wItems (fun s => s) (fun _ => .ok [])
      (fun _ => .ok []) (fun _ => .ok ()) "b1" (some 2) false rfl rfl (by decide)⟩

theorem expectedPages_congr (extract : PdfPageEnv → String)
    (embed1 embed2 : String → Option Embedding) (book_id : String)
    (h : ∀ t, embed1 t = embed2 t) (ps : List PdfPageEnv) :
    ∀ i, expectedPages extract embed1 book_id ps i
      = expectedPages extract embed2 book_id ps i := by
  induction ps with
  | nil => intro i; rfl
  | cons p rest ih =>
    intro i
    simp only [expectedPages, h, ih]

/-- C2. The claim holds for both EBookHandler paths, which guard persistence
with text.strip(); it fails for PDFHandler.extract_text_from_pdf, whose
guard is plain truthiness (`if text:`), so whitespace-only page text (empty
after trimming) is persisted there. Amended statement: every record
persisted by EBookHandler.process_pdf or process_epub has non-empty
stripped text; every record persisted by PDFHandler.extract_text_from_pdf
merely has non-empty raw text, which may consist of whitespace. -/
theorem claim_C2_amended :
    (∀ (env : PdfEnv) (oe ge : String → Except String Embedding)
        (insert : PageData → Except String Unit) (bid : String)
        (pl : Option Nat) (ug : Bool) (r : PageData),
      r ∈ ((EBookHandler.process_pdf env oe ge insert bid pl ug).1).writes →
        pyStrip r.text ≠ "")
    ∧ (∀ (env : EpubEnv) (sgt : String → String)
        (oe ge : String → Except String Embedding)
        (insert : PageData → Except String Unit) (bid : String)
        (cl : Option Nat) (ug : Bool) (r : PageData),
      r ∈ ((EBookHandler.process_epub env sgt oe ge insert bid cl ug).1).writes →
        pyStrip r.text ≠ "")
    ∧ (∀ (oe : String → Except String Embedding)
        (insert : PageData → Except String Unit)
        (pages : List (Option String)) (pc : Nat) (bid : String) (r : PageData),
      r ∈ (PDFHandler.extract_text_from_pdf oe insert pages pc bid).writes →
        r.text ≠ "") := by
  refine ⟨?_, ?_, ?_⟩
  · intro env oe ge insert bid pl ug r hr
    unfold EBookHandler.process_pdf at hr
    cases hdl : env.download with
    | error e => rw [hdl] at hr; simp [emptyRun] at hr
    | ok u =>
      rw [hdl] at hr
      cases hop : env.openPdf with
      | error e => rw [hop] at hr; simp [emptyRun] at hr
      | ok pdf =>
        rw [hop] at hr
        cases pl with
        | none => simp [emptyRun] at hr
        | some limit =>
          dsimp only at hr
          rcases processPdfPages_writes_text _ _ insert bid _ 0 _ r hr with hmem | hne
          · simp [emptyRun] at hmem
          · exact hne
  · intro env sgt oe ge insert bid cl ug r hr
    unfold EBookHandler.process_epub at hr
    cases hdl : env.download with
    | error e => rw [hdl] at hr; simp [emptyRun] at hr
    | ok u =>
      rw [hdl] at hr
      cases hrd : env.readEpub with
      | error e => rw [hrd] at hr; simp [emptyRun] at hr
      | ok items =>
        rw [hrd] at hr
        dsimp only at hr
        have htext := processEpubChapters_writes_text sgt
          (fun t => EBookHandler.generate_embedding oe ge t false) insert bid
          (if epubTruthy cl && decide (cl.getD 0 < items.length)
            then items.take (cl.getD 0) else items) 0
          { emptyRun with tempCreated := true } r
        rcases hpair : processEpubChapters sgt
            (fun t => EBookHandler.generate_embedding oe ge t false) insert bid
            (if epubTruthy cl && decide (cl.getD 0 < items.length)
              then items.take (cl.getD 0) else items) 0
            { emptyRun with tempCreated := true } with ⟨stf, res⟩
        rw [hpair] at htext hr
        cases res with
        | error e =>
          dsimp only at hr
          rcases htext hr with hmem | hne
          · simp [emptyRun] at hmem
          · exact hne
        | ok n =>
          dsimp only at hr
          rcases htext hr with hmem | hne
          · simp [emptyRun] at hmem
          · exact hne
  · intro oe insert pages pc bid r hr
    unfold PDFHandler.extract_text_from_pdf at hr
    rcases extractTextLoop_writes_text oe insert bid _ 0 _ r hr with hmem | hne
    · simp [emptyRun] at hmem
    · exact hne

/-- C2, counterexample to the claim as stated: a page whose extract_text
result is a single space (non-empty, truthy, but empty after trimming) is
persisted by PDFHandler.extract_text_from_pdf, contradicting the claim that
a record is written only when the trimmed text is non-empty. -/
theorem claim_C2_counterexample :
    (PDFHandler.extract_text_from_pdf (fun _ => .ok [1]) (fun _ => .ok ())
        [some " "] 1 "b1").writes
      = [{ book_id := "b1", page_number := 1, text := " ", embedding := some [1] }]
    ∧ pyStrip " " = "" := ⟨rfl, rfl⟩

/-- C2, witness: the amended theorem applied to a concrete
extract_text_from_pdf run containing one persisted record. -/
theorem claim_C2_witness :
    ({ book_id := "b1", page_number := 1, text := "hello",
       embedding := some [1] } : PageData).text ≠ "" :=
  claim_C2_amended.2.2 (fun _ => .ok [1]) (fun _ => .ok ()) [some "hello"] 1 "b1"
    { book_id := "b1", page_number := 1, text := "hello", embedding := some [1] }
    (by decide)

/-- C4. Confirmed: EBookHandler.generate_embedding absorbs a provider
failure and returns None, and the extraction loop still persists every
non-blank unit with embedding None under an always-failing provider;
SummaryHandler.generate_embedding re-raises the same failure, which makes
generate_section_summary fail as a whole. -/
theorem claim_C4 :
    (∀ (oe ge : String → Except String Embedding) (t e : String) (ug : Bool),
      (if ug then ge t else oe t) = .error e →
        EBookHandler.generate_embedding oe ge t ug = none)
    ∧ (∀ (env : PdfEnv) (pdf : PdfDoc) (oe ge : String → Except String Embedding)
        (insert : PageData → Except String Unit) (bid : String) (limit : Nat) (err : String),
      env.download = .ok () → env.openPdf = .ok pdf →
      (∀ pd, insert pd = .ok ()) → (∀ t, oe t = .error err) →
      ((EBookHandler.process_pdf env oe ge insert bid (some limit) false).1).writes
        = expectedPages process_pdf_page (fun _ => none) bid
            (pdf.pages.take (min pdf.pages.length limit)) 0)
    ∧ (∀ (oe : String → Except String Embedding) (t e : String),
      oe t = .error e → SummaryHandler.generate_embedding oe t = .error e)
    ∧ (∀ (db : List PageRow) (tok : Tokenizer) (chat : Nat → String → ChatOutcome)
        (oe : String → Except String Embedding)
        (bid bt ba : String) (si : Nat) (sec : TocSection) (err : String),
      (sectionRows db bid sec).isEmpty = false →
      (∀ t, oe t = .error err) →
      SummaryHandler.generate_section_summary db tok chat oe bid bt ba si sec
        = .error err) := by
  refine ⟨?_, ?_, ?_, ?_⟩
  · intro oe ge t e ug h
    unfold EBookHandler.generate_embedding
    rw [h]
  · intro env pdf oe ge insert bid limit err hdl hop hins hfail
    rw [process_pdf_ok env pdf oe ge insert bid limit false hdl hop]
    dsimp only
    rw [processPdfPages_writes_ok _ _ insert bid hins _ 0 _]
    have hcongr : ∀ t, EBookHandler.generate_embedding oe ge t false
        = (fun _ => (none : Option Embedding)) t := by
      intro t
      unfold EBookHandler.generate_embedding
      dsimp only
      rw [hfail t]
      rfl
    rw [List.nil_append,
      expectedPages_congr _ _ _ bid hcongr _ 0]
    rfl
  · intro oe t e h
    unfold SummaryHandler.generate_embedding
    exact h
  · intro db tok chat oe bid bt ba si sec err hrows hfail
    unfold SummaryHandler.generate_section_summary
    dsimp only
    rw [hrows]
    rw [if_neg Bool.false_ne_true]
    unfold SummaryHandler.generate_embedding
    rw [hfail]

/-- C4, witness: the theorem applied to an always-failing provider on a
concrete run with one non-blank page, plus the summary-side escalation. -/
theorem claim_C4_witness :
    EBookHandler.generate_embedding (fun _ => .error "rate limited")
        (fun _ => .ok []) "text" false = none
    ∧ SummaryHandler.generate_embedding (fun _ => .error "rate limited") "text"
        = .error "rate limited" :=
  ⟨claim_C4.1 (fun _ => .error "rate limited") (fun _ => .ok []) "text" "rate limited"
      false rfl,
   claim_C4.2.2.1 (fun _ => .error "rate limited") "text" "rate limited" rfl⟩

/-- C8. The claim fails for the per-unit book_pages insert, whose failure
write_to_supabase catches and logs without re-raising: the run continues,
completes successfully, and simply persists nothing. It holds for the
batched book_sections insert of process_all_sections, which is not wrapped
in a try and propagates. Amended statement: under an always-failing page
insert, process_pdf still returns its success dict with an empty write set
and one log line per non-blank page; an insertSections failure makes
process_all_sections raise when at least one section succeeded. -/
theorem claim_C8_amended :
    (∀ (env : PdfEnv) (pdf : PdfDoc) (oe ge : String → Except String Embedding)
        (insert : PageData → Except String Unit) (bid : String) (limit : Nat)
        (err : String),
      env.download = .ok () → env.openPdf = .ok pdf →
      (∀ pd, insert pd = .error err) →
      (EBookHandler.process_pdf env oe ge insert bid (some limit) false).2
          = .ok { success := true, message := "PDF processed and stored successfully",
                  pageCount := min pdf.pages.length limit }
        ∧ ((EBookHandler.process_pdf env oe ge insert bid (some limit) false).1).writes = []
        ∧ ((EBookHandler.process_pdf env oe ge insert bid (some limit) false).1).log
            = List.replicate
                (expectedPages process_pdf_page
                  (fun t => EBookHandler.generate_embedding oe ge t false) bid
                  (pdf.pages.take (min pdf.pages.length limit)) 0).length
                ("Failed to write to Supabase: " ++ err))
    ∧ (∀ (db : List PageRow) (tok : Tokenizer) (chat : Nat → String → ChatOutcome)
        (oe : String → Except String Embedding)
        (insertSections : List SummaryData → Except String Unit)
        (bid bt ba : String) (toc : List TocSection) (e : String),
      insertSections (sectionResults db tok chat oe bid bt ba toc) = .error e →
      (sectionResults db tok chat oe bid bt ba toc).isEmpty = false →
      (SummaryHandler.process_all_sections db tok chat oe insertSections
          bid bt ba toc).2 = .error e) := by
  constructor
  · intro env pdf oe ge insert bid limit err hdl hop hins
    rw [process_pdf_ok env pdf oe ge insert bid limit false hdl hop]
    obtain ⟨h1, h2⟩ := processPdfPages_insert_fail
      (if false then process_pdf_page_with_gemini else process_pdf_page)
      (fun t => EBookHandler.generate_embedding oe ge t false) insert bid err hins
      (pdf.pages.take (min pdf.pages.length limit)) 0
      { writes := [], log := [], tempCreated := true, tempDeleted := false }
    refine ⟨rfl, ?_, ?_⟩
    · dsimp only
      rw [h1]
    · dsimp only
      rw [h2]
      rw [List.nil_append]
      rfl
  · intro db tok chat oe insertS bid bt ba toc e herr hne
    unfold SummaryHandler.process_all_sections
    dsimp only
    rw [hne, if_neg Bool.false_ne_true, herr]

/-- Page with long extractable text for the C8 environments. -/
def c8page : PdfPageEnv :=
  { textLayer := .ok (some "aaaaaaaaaaaaaaaaaaaaaaaaaaaaaaaaaaaaaaaaaaaaaaaaaaaaaaaaaaaa"),
    convert := fun _ => .error "no rasterizer" }

/-- Document of one long page. -/
def c8doc : PdfDoc := { pages := [c8page] }

/-- Environment delivering c8doc. -/
def c8env : PdfEnv := { download := .ok (), openPdf := .ok c8doc }

/-- C8, counterexample to the claim as stated: with an always-failing
book_pages insert the run neither raises nor aborts: it logs the failure,
persists nothing, and still returns its success dict for all 1 pages. -/
theorem claim_C8_counterexample :
    EBookHandler.process_pdf c8env (fun _ => .ok [1]) (fun _ => .ok [2])
        (fun _ => .error "db down") "b1" (some 1) false
      = ({ writes := [],
           log := ["Failed to write to Supabase: db down"],
           tempCreated := true, tempDeleted := true },
         .ok { success := true, message := "PDF processed and stored successfully",
               pageCount := 1 }) := rfl

/-- C8, witness: the amended theorem applied to the concrete failing-insert
run, discharging all hypotheses. -/
theorem claim_C8_witness :
    (EBookHandler.process_pdf c8env (fun _ => .ok [1]) (fun _ => .ok [2])
        (fun _ => .error "db down") "b1" (some 1) false).2
      = .ok { success := true, message := "PDF processed and stored successfully",
              pageCount := min c8doc.pages.length 1 }
    ∧ ((EBookHandler.process_pdf c8env (fun _ => .ok [1]) (fun _ => .ok [2])
        (fun _ => .error "db down") "b1" (some 1) false).1).writes = []
    ∧ ((EBookHandler.process_pdf c8env (fun _ => .ok [1]) (fun _ => .ok [2])
        (fun _ => .error "db down") "b1" (some 1) false).1).log
        = List.replicate
            (expectedPages process_pdf_page
              (fun t => EBookHandler.generate_embedding (fun _ => .ok [1])
                (fun _ => .ok [2]) t false) "b1"
              (c8doc.pages.take (min c8doc.pages.length 1)) 0).length
            ("Failed to write to Supabase: " ++ "db down") :=
  claim_C8_amended.1 c8env c8doc (fun _ => .ok [1]) (fun _ => .ok [2])
    (fun _ => .error "db down") "b1" 1 "db down" rfl rfl (fun _ => rfl)

theorem length_filterMap_countP {α β : Type} (f : α → Option β) (l : List α) :
    (l.filterMap f).length = l.countP (fun a => (f a).isSome) := by
  induction l with
  | nil => rfl
  | cons a t ih =>
    cases hfa : f a with
    | none => simp [List.filterMap_cons, hfa, List.countP_cons, ih]
    | some b => simp [List.filterMap_cons, hfa, List.countP_cons, ih]

theorem except_toOption_isSome {ε α : Type} (e : Except ε α) :
    e.toOption.isSome = e.isOk := by
  cases e <;> rfl

theorem enumFrom_map_getD {β : Type} (f : Nat × String → β) :
    ∀ (l : List String) (n i : Nat), i < l.length →
      ∀ (d : β), ((l.enumFrom n).map f).getD i d = f (n + i, l.getD i "") := by
  intro l
  induction l with
  | nil => intro n i hi d; simp at hi
  | cons a t ih =>
    intro n i hi d
    cases i with
    | zero => simp [List.enumFrom]
    | succ j =>
      simp only [List.enumFrom, List.map_cons, List.getD_cons_succ]
      rw [ih (n + 1) j (by simpa using hi) d]
      have harith : n + 1 + j = n + (j + 1) := by omega
      rw [harith]

theorem enum_map_getD {β : Type} (f : Nat × String → β) (l : List String)
    (d : β) (i : Nat) (hi : i < l.length) :
    (l.enum.map f).getD i d = f (i, l.getD i "") := by
  have h := enumFrom_map_getD f l 0 i hi d
  simpa [List.enum] using h

/-- C3. The resilience half of the claim holds: a failing section (in
particular one whose page range matches no persisted unit) is caught and
excluded while its siblings complete, and process_all_sections does not
raise when the batch insert succeeds. The return-shape half fails: the
returned dict has keys success and message only; there is no
processed_count field, and the succeeded-section count appears inside the
message string "Processed k sections". Amended statement: given a working
batch insert, process_all_sections returns success true plus that message
string with k the number of TOC entries whose generate_section_summary
succeeded, and the rows handed to the batch insert are exactly the
successful summaries. -/
theorem claim_C3_amended (db : List PageRow) (tok : Tokenizer)
    (chat : Nat → String → ChatOutcome) (oe : String → Except String Embedding)
    (insertS : List SummaryData → Except String Unit)
    (bid bt ba : String) (toc : List TocSection)
    (hins : ∀ l, insertS l = .ok ()) :
    (SummaryHandler.process_all_sections db tok chat oe insertS bid bt ba toc).2
      = .ok [("success", JVal.bool true),
             ("message", JVal.str ("Processed "
               ++ toString (sectionResults db tok chat oe bid bt ba toc).length
               ++ " sections"))]
    ∧ ((SummaryHandler.process_all_sections db tok chat oe insertS bid bt ba toc).1).written
        = (if (sectionResults db tok chat oe bid bt ba toc).isEmpty then []
           else sectionResults db tok chat oe bid bt ba toc)
    ∧ (sectionResults db tok chat oe bid bt ba toc).length
        = toc.enum.countP (fun p =>
            (SummaryHandler.generate_section_summary db tok chat oe
              bid bt ba p.1 p.2).isOk) := by
  refine ⟨?_, ?_, ?_⟩
  · unfold SummaryHandler.process_all_sections
    dsimp only
    by_cases hres : (sectionResults db tok chat oe bid bt ba toc).isEmpty = true
    · rw [if_pos hres]
    · rw [if_neg hres, hins]
  · unfold SummaryHandler.process_all_sections
    dsimp only
    by_cases hres : (sectionResults db tok chat oe bid bt ba toc).isEmpty = true
    · rw [if_pos hres, if_pos hres]
    · rw [if_neg hres, if_neg hres, hins]
  · unfold sectionResults
    rw [length_filterMap_countP]
    congr 1
    funext p
    rw [except_toOption_isSome]

/-- Persisted pages of the C3 scenario: pages 1 and 3 exist, page 2 does
not, so the middle section of the TOC below matches zero units. -/
def c3db : List PageRow :=
  [{ book_id := "b1", page_number := 1, text := "p1" },
   { book_id := "b1", page_number := 3, text := "p3" }]

/-- Three TOC sections; section B covers only the missing page 2. -/
def c3toc : List TocSection :=
  [{ title := "A", start_page := 1, end_page := 1 },
   { title := "B", start_page := 2, end_page := 2 },
   { title := "C", start_page := 3, end_page := 3 }]

/-- One-token tokenizer for the C3 and C5 scenarios. -/
def c3tok : Tokenizer := { encode := fun _ => [7], decode := fun _ => "D" }

/-- Chat model that always summarizes to "S". -/
def c3chat : Nat → String → ChatOutcome := fun _ _ => .responds (some "S")

/-- C3, counterexample to the claim as stated: in the 3-section scenario
with an empty middle range the run does not raise and two sections succeed,
but the returned key-value payload carries no processed_count key; the
count 2 only occurs inside the message string. -/
theorem claim_C3_counterexample :
    (SummaryHandler.process_all_sections c3db c3tok c3chat (fun _ => .ok [1])
        (fun _ => .ok ()) "b1" "T" "A" c3toc).2
      = .ok [("success", JVal.bool true), ("message", JVal.str "Processed 2 sections")]
    ∧ List.lookup "processed_count"
        [(("success" : String), JVal.bool true),
         ("message", JVal.str "Processed 2 sections")] = none := ⟨rfl, rfl⟩

/-- C3, witness: the amended theorem applied to the 3-section scenario with
a succeeding batch insert. -/
theorem claim_C3_witness :
    (SummaryHandler.process_all_sections c3db c3tok c3chat (fun _ => .ok [1])
        (fun _ => .ok ()) "b1" "T" "A" c3toc).2
      = .ok [("success", JVal.bool true),
             ("message", JVal.str ("Processed "
               ++ toString (sectionResults c3db c3tok c3chat (fun _ => .ok [1])
                 "b1" "T" "A" c3toc).length
               ++ " sections"))]
    ∧ ((SummaryHandler.process_all_sections c3db c3tok c3chat (fun _ => .ok [1])
        (fun _ => .ok ()) "b1" "T" "A" c3toc).1).written
        = (if (sectionResults c3db c3tok c3chat (fun _ => .ok [1]) "b1" "T" "A" c3toc).isEmpty
           then []
           else sectionResults c3db c3tok c3chat (fun _ => .ok [1]) "b1" "T" "A" c3toc)
    ∧ (sectionResults c3db c3tok c3chat (fun _ => .ok [1]) "b1" "T" "A" c3toc).length
        = c3toc.enum.countP (fun p =>
            (SummaryHandler.generate_section_summary c3db c3tok c3chat (fun _ => .ok [1])
              "b1" "T" "A" p.1 p.2).isOk) :=
  claim_C3_amended c3db c3tok c3chat (fun _ => .ok [1]) (fun _ => .ok ())
    "b1" "T" "A" c3toc (fun _ => rfl)

/-- Chunks the token budget produces for one section, mirroring the
section_text and chunks locals of generate_section_summary. -/
def sectionChunkList (db : List PageRow) (tok : Tokenizer) (bid : String)
    (sec : TocSection) : List String :=
  SummaryHandler.split_text_128k tok
    (String.intercalate " " ((sectionRows db bid sec).map PageRow.text))

/-- Per-chunk results of generate_section_summary, in chunk order. -/
def sectionChunkSummaries (db : List PageRow) (tok : Tokenizer)
    (chat : Nat → String → ChatOutcome) (bid : String) (sec : TocSection) : List String :=
  (sectionChunkList db tok bid sec).enum.map (fun p => chunkSummary chat p.1 p.2)

/-- C5. Confirmed: when the section has at least one row and the embedding
call succeeds, the produced summary is the blank-line join of exactly one
result per token chunk, in chunk order, and each per-chunk result is the
model content when the call responded with non-empty content, and the raw
chunk text itself otherwise. -/
theorem claim_C5 (db : List PageRow) (tok : Tokenizer)
    (chat : Nat → String → ChatOutcome) (oe : String → Except String Embedding)
    (bid bt ba : String) (si : Nat) (sec : TocSection) (v : Embedding)
    (hrows : (sectionRows db bid sec).isEmpty = false)
    (hemb : ∀ t, oe t = .ok v) :
    ∃ sd, SummaryHandler.generate_section_summary db tok chat oe bid bt ba si sec = .ok sd
      ∧ sd.summary = String.intercalate "\n\n" (sectionChunkSummaries db tok chat bid sec)
      ∧ (sectionChunkSummaries db tok chat bid sec).length
          = (sectionChunkList db tok bid sec).length
      ∧ ∀ i, i < (sectionChunkList db tok bid sec).length →
          ((∃ s, chat i ((sectionChunkList db tok bid sec).getD i "")
                = ChatOutcome.responds (some s)
              ∧ s ≠ ""
              ∧ (sectionChunkSummaries db tok chat bid sec).getD i "" = s)
            ∨ (sectionChunkSummaries db tok chat bid sec).getD i ""
                = (sectionChunkList db tok bid sec).getD i "") := by
  have hgss : SummaryHandler.generate_section_summary db tok chat oe bid bt ba si sec
      = .ok { book_id := bid, index := si, section_title := sec.title,
              start_page := sec.start_page, end_page := sec.end_page,
              summary := String.intercalate "\n\n" (sectionChunkSummaries db tok chat bid sec),
              embedding := v } := by
    unfold SummaryHandler.generate_section_summary
    dsimp only
    rw [hrows, if_neg Bool.false_ne_true]
    unfold SummaryHandler.generate_embedding
    rw [hemb]
    rfl
  refine ⟨_, hgss, rfl, ?_, ?_⟩
  · unfold sectionChunkSummaries
    simp
  · intro i hi
    have hsum : (sectionChunkSummaries db tok chat bid sec).getD i ""
        = chunkSummary chat i ((sectionChunkList db tok bid sec).getD i "") := by
      unfold sectionChunkSummaries
      exact enum_map_getD (fun p => chunkSummary chat p.1 p.2)
        (sectionChunkList db tok bid sec) "" i hi
    rw [hsum]
    cases hchat : chat i ((sectionChunkList db tok bid sec).getD i "") with
    | raises e =>
      right
      unfold chunkSummary
      rw [hchat]
    | responds content =>
      cases content with
      | none =>
        right
        unfold chunkSummary
        rw [hchat]
      | some s =>
        by_cases hs : s = ""
        · right
          unfold chunkSummary
          rw [hchat]
          dsimp only
          rw [if_pos hs]
        · left
          refine ⟨s, rfl, hs, ?_⟩
          unfold chunkSummary
          rw [hchat]
          dsimp only
          rw [if_neg hs]

/-- Persisted page for the C5 witness. -/
def c5db : List PageRow := [{ book_id := "b1", page_number := 1, text := "T" }]

/-- Section covering that page. -/
def c5sec : TocSection := { title := "A", start_page := 1, end_page := 1 }

/-- C5, witness: the theorem applied to a concrete one-chunk section with a
succeeding embedding provider. -/
theorem claim_C5_witness :
    ∃ sd, SummaryHandler.generate_section_summary c5db c3tok c3chat (fun _ => .ok [1])
        "b1" "BT" "BA" 0 c5sec = .ok sd
      ∧ sd.summary = String.intercalate "\n\n"
          (sectionChunkSummaries c5db c3tok c3chat "b1" c5sec)
      ∧ (sectionChunkSummaries c5db c3tok c3chat "b1" c5sec).length
          = (sectionChunkList c5db c3tok "b1" c5sec).length
      ∧ ∀ i, i < (sectionChunkList c5db c3tok "b1" c5sec).length →
          ((∃ s, c3chat i ((sectionChunkList c5db c3tok "b1" c5sec).getD i "")
                = ChatOutcome.responds (some s)
              ∧ s ≠ ""
              ∧ (sectionChunkSummaries c5db c3tok c3chat "b1" c5sec).getD i "" = s)
            ∨ (sectionChunkSummaries c5db c3tok c3chat "b1" c5sec).getD i ""
                = (sectionChunkList c5db c3tok "b1" c5sec).getD i "") :=
  claim_C5 c5db c3tok c3chat (fun _ => .ok [1]) "b1" "BT" "BA" 0 c5sec [1]
    (by decide) (fun _ => rfl)
